import Mathlib

/-!
Shallow embedding of `backend/onyx/connectors/azure_devops/connector.py`.

The connector pulls Azure DevOps work items and maps them to normalized
documents.  External collaborators (the work-item-tracking SDK client and the
Python standard library's clock and ISO-8601 parser) are modelled as an
explicit environment record; the connector's own logic (credential loading,
query construction, batching, field-to-document mapping) is translated
directly from the Python source.
-/

namespace Onyx

/-- Model of a Python `datetime`: `seconds` is the naive wall-clock reading
(seconds since 1970-01-01 00:00:00 of the wall-clock fields, at second
resolution), `tz` the attached offset in seconds (`none` = naive,
`some 0` = `timezone.utc`).  `replace(tzinfo=...)` swaps `tz` and keeps
`seconds`; a conversion would change both. -/
structure PyDateTime where
  seconds : Int
  tz : Option Int
deriving DecidableEq

/-- Model of `datetime.replace(tzinfo=tz)`: reattach an offset without converting. -/
def PyDateTime.replaceTz (d : PyDateTime) (tz : Option Int) : PyDateTime :=
  { d with tz := tz }

/-- Model of `datetime.fromtimestamp(ts, tz=timezone.utc)` for an integral epoch. -/
def pyFromtimestamp (ts : Int) : PyDateTime :=
  { seconds := ts, tz := some 0 }

/-- Civil date (year, month, day) of a day count relative to 1970-01-01
(Gregorian calendar, proleptic). -/
def civilFromDays (z0 : Int) : Int × Nat × Nat :=
  let z := z0 + 719468
  let era : Int := (if 0 ≤ z then z else z - 146096) / 146097
  let doe : Nat := (z - era * 146097).toNat
  let yoe : Nat := (doe - doe / 1460 + doe / 36524 - doe / 146096) / 365
  let y : Int := (yoe : Int) + era * 400
  let doy : Nat := doe - (365 * yoe + yoe / 4 - yoe / 100)
  let mp : Nat := (5 * doy + 2) / 153
  let d : Nat := doy - (153 * mp + 2) / 5 + 1
  let m : Nat := if mp < 10 then mp + 3 else mp - 9
  (if m ≤ 2 then y + 1 else y, m, d)

/-- Decimal rendering padded to two digits. -/
def pad2 (n : Nat) : String :=
  if n < 10 then "0" ++ Nat.repr n else Nat.repr n

/-- Decimal rendering padded to four digits. -/
def pad4 (n : Nat) : String :=
  if n < 10 then "000" ++ Nat.repr n
  else if n < 100 then "00" ++ Nat.repr n
  else if n < 1000 then "0" ++ Nat.repr n
  else Nat.repr n

/-- Python `datetime.isoformat()` at second resolution:
`YYYY-MM-DDTHH:MM:SS` plus `+HH:MM` when an offset is attached. -/
def pyIsoformat (dt : PyDateTime) : String :=
  let days := dt.seconds.ediv 86400
  let sod := (dt.seconds.emod 86400).toNat
  let c := civilFromDays days
  let date := pad4 c.1.toNat ++ "-" ++ pad2 c.2.1 ++ "-" ++ pad2 c.2.2
  let time := pad2 (sod / 3600) ++ ":" ++ pad2 (sod % 3600 / 60) ++ ":" ++ pad2 (sod % 60)
  let off := match dt.tz with
    | none => ""
    | some o => (if 0 ≤ o then "+" else "-") ++ pad2 (o.natAbs / 3600) ++ ":" ++ pad2 (o.natAbs % 3600 / 60)
  date ++ "T" ++ time ++ off

/-- Python `s.rstrip("Z")`: remove every trailing `'Z'`. -/
def rstripZ (s : String) : String :=
  String.mk ((s.toList.reverse.dropWhile (fun c => c = 'Z')).reverse)

/-- A value found under `System.ChangedDate` in a work item's field dict:
the code distinguishes `str`, `datetime`, and anything else. -/
inductive ChangedDateVal where
  | str (s : String)
  | dt (d : PyDateTime)
  | other
deriving DecidableEq

/-- The field dict of a work item (only the keys the connector reads).
`none` models an absent key. -/
structure Fields where
  changedDate : Option ChangedDateVal
  title : Option String
  description : Option String
  assignedTo : Option String
  state : Option String
deriving DecidableEq

/-- The empty dict `{}` substituted by `item.fields or {}`. -/
def emptyFields : Fields :=
  { changedDate := none, title := none, description := none,
    assignedTo := none, state := none }

/-- A work item returned by `get_work_items`: id, url and optional fields. -/
structure WorkItem where
  id : Nat
  url : String
  fields : Option Fields
deriving DecidableEq

/-- Model of `BasicExpertInfo(display_name=...)`. -/
structure BasicExpertInfo where
  display_name : String
deriving DecidableEq

/-- Model of `TextSection(link=..., text=...)`. -/
structure TextSection where
  link : String
  text : String
deriving DecidableEq

/-- The normalized `Document` the connector yields (the fields it sets). -/
structure Document where
  id : String
  sections : List TextSection
  source : String
  semantic_identifier : String
  doc_updated_at : PyDateTime
  primary_owners : List BasicExpertInfo
  metadata_state : Option String
deriving DecidableEq

/-- The authenticated work-item-tracking client handle, produced by
`Connection(..., creds=BasicAuthentication("", pat)).clients.get_work_item_tracking_client()`.
Construction is local object wiring; it performs no network call. -/
structure Client where
  pat : String
deriving DecidableEq

/-- State of `AzureDevopsConnector.__init__`: static config plus the optional client
handle, initially unset. -/
structure AzureDevopsConnector where
  organization : String
  project : String
  batch_size : Nat
  client : Option Client
deriving DecidableEq

/-- Constructor `AzureDevopsConnector(organization, project, batch_size)`. -/
def AzureDevopsConnector.init (organization project : String) (batch_size : Nat) :
    AzureDevopsConnector :=
  { organization := organization, project := project,
    batch_size := batch_size, client := none }

/-- The single error kind the connector raises itself:
`ConnectorMissingCredentialError(msg)`. -/
inductive ConnectorError where
  | missingCredential (msg : String)
deriving DecidableEq

/-- A credential value in the credential bundle: a Python string or any
other value (whose shape the code never inspects). -/
inductive CredVal where
  | str (s : String)
  | other
deriving DecidableEq

/-- Behaviour of the external collaborators during one retrieval call:
`runQuery` is `query_by_wiql` (returning `result.work_items`' ids, `none`
when that attribute is `None`), `getWorkItems` is `get_work_items`,
`fromisoformat` is `datetime.fromisoformat` (`none` = raises), and `now`
is the naive `datetime.utcnow()` reading. -/
structure Env where
  runQuery : String → Option (List Nat)
  getWorkItems : List Nat → List WorkItem
  fromisoformat : String → Option PyDateTime
  now : PyDateTime

/-- Method `load_credentials`: require a string under `"azure_devops_pat"`, else
raise; on success construct and store the client.  The Python method
mutates `self.client` and returns `None`; here the updated connector is
returned in the `ok` case and an error leaves the connector untouched. -/
def load_credentials (c : AzureDevopsConnector) (credentials : String → Option CredVal) :
    Except ConnectorError AzureDevopsConnector :=
  match credentials "azure_devops_pat" with
  | some (CredVal.str pat) => Except.ok { c with client := some { pat := pat } }
  | _ => Except.error (ConnectorError.missingCredential "Azure DevOps PAT missing or invalid")

/-- The WIQL text built by `_fetch_work_items` from the project and the
optional bounds (a `datetime` is always truthy in Python, so `if start:`
is exactly the `some` test). -/
def buildQuery (project : String) (start stop : Option PyDateTime) : String :=
  let query := "SELECT [System.Id] FROM WorkItems WHERE [System.TeamProject]='" ++ project ++ "'"
  let query := match start with
    | some s => query ++ " AND [System.ChangedDate] >= '" ++ pyIsoformat s ++ "'"
    | none => query
  let query := match stop with
    | some e => query ++ " AND [System.ChangedDate] <= '" ++ pyIsoformat e ++ "'"
    | none => query
  query ++ " ORDER BY [System.ChangedDate] ASC"

/-- The per-item mapping of `_fetch_work_items`' inner loop: one work item
to one normalized `Document`. -/
def mapWorkItem (env : Env) (item : WorkItem) : Document :=
  let fields := item.fields.getD emptyFields
  let updated_at_dt :=
    match fields.changedDate with
    | some (ChangedDateVal.str s) =>
        match env.fromisoformat (rstripZ s) with
        | some d => d
        | none => env.now
    | some (ChangedDateVal.dt d) => d
    | _ => env.now
  let updated_at_dt := updated_at_dt.replaceTz (some 0)
  { id := Nat.repr item.id
    sections := [{ link := item.url, text := fields.description.getD "" }]
    source := "azure_devops"
    semantic_identifier := fields.title.getD ("Work Item " ++ Nat.repr item.id)
    doc_updated_at := updated_at_dt
    primary_owners :=
      match fields.assignedTo with
      | some s => if s = "" then [] else [{ display_name := s }]
      | none => []
    metadata_state := fields.state }

/-- The batching loop `for i in range(0, len(ids), self.batch_size)` of
`_fetch_work_items`: slice a batch of ids, fetch its items, map them, and
yield the batch only when non-empty.  Python raises `ValueError` on step 0,
so the `B = 0` branch is unreachable for the batch sizes the connector is
constructed with. -/
def fetchBatches (env : Env) (B : Nat) (ids : List Nat) : List (List Document) :=
  if hB : B = 0 then []
  else if hids : ids = [] then []
  else
    let docs := (env.getWorkItems (ids.take B)).map (mapWorkItem env)
    let rest := fetchBatches env B (ids.drop B)
    if docs.isEmpty then rest else docs :: rest
termination_by ids.length
decreasing_by
  simp only [List.length_drop]
  have hpos : 0 < ids.length := List.length_pos.mpr hids
  omega

/-- Method `_fetch_work_items`: require the client, build and run the query,
extract the id list (`[]` when `result.work_items` is `None`), then batch.
The yielded batches are collected into a list. -/
def fetchWorkItems (c : AzureDevopsConnector) (env : Env)
    (start stop : Option PyDateTime) : Except ConnectorError (List (List Document)) :=
  match c.client with
  | none => Except.error (ConnectorError.missingCredential "Azure DevOps")
  | some _ =>
    let query := buildQuery c.project start stop
    let ids := (env.runQuery query).getD []
    Except.ok (fetchBatches env c.batch_size ids)

/-- Method `load_from_state`: full load, no bounds. -/
def load_from_state (c : AzureDevopsConnector) (env : Env) :
    Except ConnectorError (List (List Document)) :=
  fetchWorkItems c env none none

/-- Method `poll_source`: convert both epoch-second bounds with
`datetime.fromtimestamp(_, tz=timezone.utc)` and run the bounded fetch. -/
def poll_source (c : AzureDevopsConnector) (env : Env) (start stop : Int) :
    Except ConnectorError (List (List Document)) :=
  fetchWorkItems c env (some (pyFromtimestamp start)) (some (pyFromtimestamp stop))

/-- Substring occurrence on character lists. -/
def hasSubstrChars (s sub : List Char) : Bool :=
  match s with
  | [] => sub.isEmpty
  | _ :: cs => sub.isPrefixOf s || hasSubstrChars cs sub

/-- Substring occurrence on strings. -/
def strContains (s sub : String) : Bool :=
  hasSubstrChars s.toList sub.toList

/-- Suffix test on strings. -/
def strEndsWith (s suffix : String) : Bool :=
  suffix.toList.isSuffixOf s.toList

/-! Helper lemmas. -/

theorem toDigitsCore_length_le (b : Nat) :
    ∀ (fuel n : Nat) (ds : List Char), ds.length ≤ (Nat.toDigitsCore b fuel n ds).length := by
  intro fuel
  induction fuel with
  | zero => intro n ds; simp [Nat.toDigitsCore]
  | succ f ih =>
    intro n ds
    simp only [Nat.toDigitsCore]
    split
    · simp
    · calc ds.length ≤ (Nat.digitChar (n % b) :: ds).length := by simp
        _ ≤ _ := ih _ _

theorem repr_ne_empty (n : Nat) : Nat.repr n ≠ "" := by
  have h1 : 1 ≤ (Nat.toDigits 10 n).length := by
    simp only [Nat.toDigits, Nat.toDigitsCore]
    split
    · simp
    · calc 1 = ([Nat.digitChar (n % 10)] : List Char).length := rfl
      _ ≤ _ := toDigitsCore_length_le 10 n (n / 10) _
  intro h
  have h2 : (Nat.toDigits 10 n) = [] := by
    have h3 := congrArg String.data h
    simpa [Nat.repr, List.asString] using h3
  rw [h2] at h1
  simp at h1

theorem fetchBatches_nil (env : Env) (B : Nat) : fetchBatches env B [] = [] := by
  rw [fetchBatches]
  simp

theorem fetchBatches_cons (env : Env) (B : Nat) (hB : B ≠ 0) (ids : List Nat)
    (hids : ids ≠ []) :
    fetchBatches env B ids =
      if ((env.getWorkItems (ids.take B)).map (mapWorkItem env)).isEmpty
      then fetchBatches env B (ids.drop B)
      else ((env.getWorkItems (ids.take B)).map (mapWorkItem env))
            :: fetchBatches env B (ids.drop B) := by
  conv_lhs => rw [fetchBatches]
  simp [hB, hids]

theorem ceil_div_step (lenn B : Nat) (hB : 0 < B) (hlen : 0 < lenn) :
    (lenn - B + B - 1) / B + 1 = (lenn + B - 1) / B := by
  rcases Nat.lt_or_ge B lenn with hlt | hge
  · have e1 : lenn - B + B - 1 = lenn - 1 := by omega
    have e2 : lenn + B - 1 = (lenn - 1) + B := by omega
    rw [e1, e2, Nat.add_div_right _ hB]
  · have e1 : lenn - B + B - 1 = B - 1 := by omega
    rw [e1, Nat.div_eq_of_lt (by omega)]
    have e3 : lenn + B - 1 = (lenn - 1) + B := by omega
    rw [e3, Nat.add_div_right _ hB, Nat.div_eq_of_lt (by omega)]

theorem fetchBatches_spec (env : Env) (B : Nat) (hB : 0 < B)
    (HW : ∀ l, (env.getWorkItems l).map WorkItem.id = l) :
    ∀ (n : Nat) (ids : List Nat), ids.length ≤ n →
      ((fetchBatches env B ids).map (fun b => b.map Document.id)).flatten = ids.map Nat.repr
        ∧ (fetchBatches env B ids).length = (ids.length + B - 1) / B
        ∧ (fetchBatches env B ids).all (fun b => !b.isEmpty) = true := by
  intro n
  induction n with
  | zero =>
    intro ids h
    have hnil : ids = [] := List.eq_nil_of_length_eq_zero (Nat.le_zero.mp h)
    subst hnil
    rw [fetchBatches_nil]
    exact ⟨rfl, by simp [Nat.div_eq_of_lt (by omega : B - 1 < B)], rfl⟩
  | succ n ih =>
    intro ids h
    by_cases hids : ids = []
    · subst hids
      rw [fetchBatches_nil]
      exact ⟨rfl, by simp [Nat.div_eq_of_lt (by omega : B - 1 < B)], rfl⟩
    · have hidspos : 0 < ids.length := List.length_pos.mpr hids
      have htakepos : 0 < (ids.take B).length := by
        rw [List.length_take]; exact lt_min hB hidspos
      have hlen : (env.getWorkItems (ids.take B)).length = (ids.take B).length := by
        have h2 := congrArg List.length (HW (ids.take B))
        simpa using h2
      have hdocslen : 0 < ((env.getWorkItems (ids.take B)).map (mapWorkItem env)).length := by
        rw [List.length_map, hlen]; exact htakepos
      have hdocs : ((env.getWorkItems (ids.take B)).map (mapWorkItem env)).isEmpty = false := by
        cases hd : (env.getWorkItems (ids.take B)).map (mapWorkItem env) with
        | nil => rw [hd] at hdocslen; simp at hdocslen
        | cons a l => rfl
      have hdrop : (ids.drop B).length ≤ n := by
        rw [List.length_drop]; omega
      obtain ⟨ih1, ih2, ih3⟩ := ih (ids.drop B) hdrop
      rw [fetchBatches_cons env B (by omega) ids hids]
      rw [if_neg (by simp [hdocs])]
      have hdocsid : (((env.getWorkItems (ids.take B)).map (mapWorkItem env)).map Document.id)
          = (ids.take B).map Nat.repr := by
        rw [List.map_map]
        have hcomp : (Document.id ∘ mapWorkItem env) = (fun it => Nat.repr (WorkItem.id it)) := rfl
        rw [hcomp]
        have h4 := congrArg (List.map Nat.repr) (HW (ids.take B))
        rw [List.map_map] at h4
        exact h4
      refine ⟨?_, ?_, ?_⟩
      · simp only [List.map_cons, List.flatten_cons, hdocsid, ih1]
        rw [← List.map_append, List.take_append_drop]
      · simp only [List.length_cons, ih2, List.length_drop]
        exact ceil_div_step ids.length B hB hidspos
      · simp [List.all_cons, hdocs, ih3]

theorem fetchBatches_zero (env : Env) (ids : List Nat) : fetchBatches env 0 ids = [] := by
  rw [fetchBatches]
  simp

/-- The per-document invariant of the spec: non-empty identifier and a
UTC-aware update timestamp. -/
def docOk (d : Document) : Bool :=
  !(d.id == "") && (d.doc_updated_at.tz == some (0 : Int))

/-- The per-batch invariant of the spec: the batch is non-empty and every
document in it satisfies `docOk`. -/
def batchOk (b : List Document) : Bool :=
  !b.isEmpty && b.all docOk

theorem docOk_mapWorkItem (env : Env) (it : WorkItem) : docOk (mapWorkItem env it) = true := by
  simp [docOk, mapWorkItem, PyDateTime.replaceTz, repr_ne_empty it.id]

theorem fetchBatches_all_ok (env : Env) (B : Nat) :
    ∀ (n : Nat) (ids : List Nat), ids.length ≤ n →
      (fetchBatches env B ids).all batchOk = true := by
  intro n
  induction n with
  | zero =>
    intro ids h
    have hnil : ids = [] := List.eq_nil_of_length_eq_zero (Nat.le_zero.mp h)
    subst hnil
    rw [fetchBatches_nil]
    rfl
  | succ n ih =>
    intro ids h
    by_cases hB : B = 0
    · subst hB
      rw [fetchBatches_zero]
      rfl
    · by_cases hids : ids = []
      · subst hids
        rw [fetchBatches_nil]
        rfl
      · have hidspos : 0 < ids.length := List.length_pos.mpr hids
        have hrest := ih (ids.drop B) (by rw [List.length_drop]; omega)
        rw [fetchBatches_cons env B hB ids hids]
        by_cases hd : ((env.getWorkItems (ids.take B)).map (mapWorkItem env)).isEmpty = true
        · rw [if_pos hd]
          exact hrest
        · rw [if_neg hd]
          simp only [List.all_cons, hrest, Bool.and_true]
          simp only [Bool.not_eq_true] at hd
          simp [batchOk, hd, List.all_map, Function.comp, docOk_mapWorkItem]

/-! Concrete fixtures used by the witnesses. -/

def exClient : Client := { pat := "token" }

def exConnector : AzureDevopsConnector :=
  { organization := "org", project := "proj", batch_size := 2, client := some exClient }

def exWorkItem (i : Nat) : WorkItem := { id := i, url := "", fields := none }

def exEnv : Env :=
  { runQuery := fun _ => some [1, 2, 3]
    getWorkItems := fun l => l.map exWorkItem
    fromisoformat := fun _ => none
    now := { seconds := 0, tz := none } }

theorem exEnv_getWorkItems_ids (l : List Nat) :
    (exEnv.getWorkItems l).map WorkItem.id = l := by
  show (l.map exWorkItem).map WorkItem.id = l
  rw [List.map_map]
  have h : (WorkItem.id ∘ exWorkItem) = fun i => i := rfl
  rw [h]
  simp

/-! Claim theorems. -/

/-- C1: for an authenticated connector with batch size `B > 0` and a query
returning the id list `ids` (with the SDK returning one work item per
requested id, in order), the retrieval routine yields exactly
`⌈ids.length / B⌉` batches, all non-empty, and the concatenation of the
yielded batches' document identifiers is `ids` stringified, in query
order. -/
theorem fetch_yields_ceil_batches_preserving_order
    (c : AzureDevopsConnector) (env : Env) (cl : Client)
    (start stop : Option PyDateTime) (ids : List Nat) (bs : List (List Document))
    (hcl : c.client = some cl) (hB : 0 < c.batch_size)
    (HW : ∀ l, (env.getWorkItems l).map WorkItem.id = l)
    (hq : env.runQuery (buildQuery c.project start stop) = some ids)
    (hres : fetchWorkItems c env start stop = Except.ok bs) :
    (bs.map (fun b => b.map Document.id)).flatten = ids.map Nat.repr
      ∧ bs.length = (ids.length + c.batch_size - 1) / c.batch_size
      ∧ bs.all (fun b => !b.isEmpty) = true := by
  have hbs : fetchBatches env c.batch_size ids = bs := by
    simp [fetchWorkItems, hcl, hq] at hres
    exact hres
  rw [← hbs]
  exact fetchBatches_spec env c.batch_size hB HW ids.length ids le_rfl

theorem fetch_yields_ceil_batches_preserving_order_witness :
    ((fetchBatches exEnv 2 [1, 2, 3]).map (fun b => b.map Document.id)).flatten
        = [1, 2, 3].map Nat.repr
      ∧ (fetchBatches exEnv 2 [1, 2, 3]).length
        = (([1, 2, 3] : List Nat).length + 2 - 1) / 2 := by
  have h := fetch_yields_ceil_batches_preserving_order exConnector exEnv exClient none none
    [1, 2, 3] (fetchBatches exEnv 2 [1, 2, 3]) rfl (by decide) exEnv_getWorkItems_ids rfl rfl
  exact ⟨h.1, h.2.1⟩

/-- C3: every batch the retrieval routine yields is non-empty, and every
document in it has a non-empty identifier and a UTC-aware (offset-carrying)
update timestamp, whatever the source fields were. -/
theorem yielded_docs_invariant
    (c : AzureDevopsConnector) (env : Env) (start stop : Option PyDateTime)
    (bs : List (List Document)) (hres : fetchWorkItems c env start stop = Except.ok bs) :
    bs.all batchOk = true := by
  cases hcl : c.client with
  | none => simp [fetchWorkItems, hcl] at hres
  | some cl =>
    have hbs : fetchBatches env c.batch_size ((env.runQuery (buildQuery c.project start stop)).getD []) = bs := by
      simp [fetchWorkItems, hcl] at hres
      exact hres
    rw [← hbs]
    exact fetchBatches_all_ok env c.batch_size _ _ le_rfl

theorem yielded_docs_invariant_witness :
    (fetchBatches exEnv 2 [1, 2, 3]).all batchOk = true :=
  yielded_docs_invariant exConnector exEnv none none (fetchBatches exEnv 2 [1, 2, 3]) rfl

/-- C2: the update timestamp of a mapped document always carries the UTC
offset (attached by replacement, keeping the wall-clock reading); a string
changed-date is parsed after stripping trailing `Z`s, a failed parse or a
missing or unexpected-typed field falls back to the current time. -/
theorem updated_at_parse_fallback_utc (env : Env) (item : WorkItem) :
    (mapWorkItem env item).doc_updated_at.tz = some 0
    ∧ (∀ s p, (item.fields.getD emptyFields).changedDate = some (ChangedDateVal.str s) →
        env.fromisoformat (rstripZ s) = some p →
        (mapWorkItem env item).doc_updated_at.seconds = p.seconds)
    ∧ (∀ s, (item.fields.getD emptyFields).changedDate = some (ChangedDateVal.str s) →
        env.fromisoformat (rstripZ s) = none →
        (mapWorkItem env item).doc_updated_at.seconds = env.now.seconds)
    ∧ ((item.fields.getD emptyFields).changedDate = none →
        (mapWorkItem env item).doc_updated_at.seconds = env.now.seconds)
    ∧ ((item.fields.getD emptyFields).changedDate = some ChangedDateVal.other →
        (mapWorkItem env item).doc_updated_at.seconds = env.now.seconds) := by
  refine ⟨?_, ?_, ?_, ?_, ?_⟩
  · simp [mapWorkItem, PyDateTime.replaceTz]
  · intro s p h1 h2; simp [mapWorkItem, PyDateTime.replaceTz, h1, h2]
  · intro s h1 h2; simp [mapWorkItem, PyDateTime.replaceTz, h1, h2]
  · intro h1; simp [mapWorkItem, PyDateTime.replaceTz, h1]
  · intro h1; simp [mapWorkItem, PyDateTime.replaceTz, h1]

def exEnvParse : Env :=
  { runQuery := fun _ => none
    getWorkItems := fun _ => []
    fromisoformat := fun s =>
      if s = "2024-01-02T03:04:05" then some { seconds := 1704164645, tz := none } else none
    now := { seconds := 999, tz := none } }

def exItemOk : WorkItem :=
  { id := 7, url := "u",
    fields := some { emptyFields with changedDate := some (ChangedDateVal.str "2024-01-02T03:04:05Z") } }

def exItemBad : WorkItem :=
  { id := 8, url := "u",
    fields := some { emptyFields with changedDate := some (ChangedDateVal.str "garbage") } }

def exItemNone : WorkItem := { id := 9, url := "u", fields := none }

theorem updated_at_parse_fallback_utc_witness :
    (mapWorkItem exEnvParse exItemOk).doc_updated_at.seconds = 1704164645
      ∧ (mapWorkItem exEnvParse exItemOk).doc_updated_at.tz = some 0
      ∧ (mapWorkItem exEnvParse exItemBad).doc_updated_at.seconds = 999
      ∧ (mapWorkItem exEnvParse exItemNone).doc_updated_at.seconds = 999 := by
  refine ⟨?_, ?_, ?_, ?_⟩
  · exact (updated_at_parse_fallback_utc exEnvParse exItemOk).2.1 "2024-01-02T03:04:05Z"
      { seconds := 1704164645, tz := none } rfl (by decide)
  · exact (updated_at_parse_fallback_utc exEnvParse exItemOk).1
  · exact (updated_at_parse_fallback_utc exEnvParse exItemBad).2.2.1 "garbage" rfl (by decide)
  · exact (updated_at_parse_fallback_utc exEnvParse exItemNone).2.2.2.1 rfl

/-- C4: with the client handle unset, every retrieval entry point raises
the missing-credential error; the result is the same for every environment,
so no query is ever executed. -/
theorem retrieval_without_client_raises
    (c : AzureDevopsConnector) (hcl : c.client = none) (env : Env)
    (start stop : Option PyDateTime) (s e : Int) :
    fetchWorkItems c env start stop
        = Except.error (ConnectorError.missingCredential "Azure DevOps")
      ∧ load_from_state c env
        = Except.error (ConnectorError.missingCredential "Azure DevOps")
      ∧ poll_source c env s e
        = Except.error (ConnectorError.missingCredential "Azure DevOps") := by
  refine ⟨?_, ?_, ?_⟩ <;> simp [fetchWorkItems, load_from_state, poll_source, hcl]

theorem retrieval_without_client_raises_witness :
    fetchWorkItems (AzureDevopsConnector.init "org" "proj" 10) exEnv none none
        = Except.error (ConnectorError.missingCredential "Azure DevOps")
      ∧ load_from_state (AzureDevopsConnector.init "org" "proj" 10) exEnv
        = Except.error (ConnectorError.missingCredential "Azure DevOps")
      ∧ poll_source (AzureDevopsConnector.init "org" "proj" 10) exEnv 0 0
        = Except.error (ConnectorError.missingCredential "Azure DevOps") :=
  retrieval_without_client_raises (AzureDevopsConnector.init "org" "proj" 10) rfl exEnv
    none none 0 0

/-- C5: credential loading fails with the missing-credential error when
the PAT key is absent or its value is not a string (returning the error
before any client is built, leaving the handle unset), and succeeds with
the client handle populated for every string value. -/
theorem load_credentials_requires_string_pat
    (c : AzureDevopsConnector) (credentials : String → Option CredVal) :
    (credentials "azure_devops_pat" = none →
      load_credentials c credentials
        = Except.error (ConnectorError.missingCredential "Azure DevOps PAT missing or invalid"))
    ∧ (credentials "azure_devops_pat" = some CredVal.other →
      load_credentials c credentials
        = Except.error (ConnectorError.missingCredential "Azure DevOps PAT missing or invalid"))
    ∧ (∀ pat, credentials "azure_devops_pat" = some (CredVal.str pat) →
      load_credentials c credentials = Except.ok { c with client := some { pat := pat } }) := by
  refine ⟨?_, ?_, ?_⟩
  · intro h; simp [load_credentials, h]
  · intro h; simp [load_credentials, h]
  · intro pat h; simp [load_credentials, h]

def exCredsNone : String → Option CredVal := fun _ => none

def exCredsWrong : String → Option CredVal :=
  fun k => if k = "azure_devops_pat" then some CredVal.other else none

def exCredsGood : String → Option CredVal :=
  fun k => if k = "azure_devops_pat" then some (CredVal.str "tok") else none

theorem load_credentials_requires_string_pat_witness :
    load_credentials (AzureDevopsConnector.init "o" "p" 5) exCredsNone
        = Except.error (ConnectorError.missingCredential "Azure DevOps PAT missing or invalid")
      ∧ load_credentials (AzureDevopsConnector.init "o" "p" 5) exCredsWrong
        = Except.error (ConnectorError.missingCredential "Azure DevOps PAT missing or invalid")
      ∧ load_credentials (AzureDevopsConnector.init "o" "p" 5) exCredsGood
        = Except.ok { organization := "o", project := "p", batch_size := 5,
                      client := some { pat := "tok" } } :=
  ⟨(load_credentials_requires_string_pat (AzureDevopsConnector.init "o" "p" 5) exCredsNone).1 rfl,
    (load_credentials_requires_string_pat (AzureDevopsConnector.init "o" "p" 5) exCredsWrong).2.1
      (by decide),
    (load_credentials_requires_string_pat (AzureDevopsConnector.init "o" "p" 5) exCredsGood).2.2
      "tok" (by decide)⟩

/-- C8: a present, non-empty assigned-to field maps to exactly one primary
owner with that display name; an absent or empty one maps to an empty
owner list. -/
theorem assignee_maps_to_single_owner (env : Env) (item : WorkItem) :
    (∀ s, (item.fields.getD emptyFields).assignedTo = some s → s ≠ "" →
      (mapWorkItem env item).primary_owners = [{ display_name := s }])
    ∧ ((item.fields.getD emptyFields).assignedTo = none →
      (mapWorkItem env item).primary_owners = [])
    ∧ ((item.fields.getD emptyFields).assignedTo = some "" →
      (mapWorkItem env item).primary_owners = []) := by
  refine ⟨?_, ?_, ?_⟩
  · intro s h hs; simp [mapWorkItem, h, hs]
  · intro h; simp [mapWorkItem, h]
  · intro h; simp [mapWorkItem, h]

def exItemAssigned : WorkItem :=
  { id := 10, url := "u",
    fields := some { emptyFields with assignedTo := some "Ada", title := some "T1" } }

def exItemEmptyAssignee : WorkItem :=
  { id := 11, url := "u", fields := some { emptyFields with assignedTo := some "" } }

theorem assignee_maps_to_single_owner_witness :
    (mapWorkItem exEnvParse exItemAssigned).primary_owners = [{ display_name := "Ada" }]
      ∧ (mapWorkItem exEnvParse exItemNone).primary_owners = []
      ∧ (mapWorkItem exEnvParse exItemEmptyAssignee).primary_owners = [] :=
  ⟨(assignee_maps_to_single_owner exEnvParse exItemAssigned).1 "Ada" rfl (by decide),
    (assignee_maps_to_single_owner exEnvParse exItemNone).2.1 rfl,
    (assignee_maps_to_single_owner exEnvParse exItemEmptyAssignee).2.2 rfl⟩

/-- C9: a missing title synthesizes the semantic identifier
`"Work Item {id}"`; a present title is used as-is. -/
theorem missing_title_synthesizes_label (env : Env) (item : WorkItem) :
    ((item.fields.getD emptyFields).title = none →
      (mapWorkItem env item).semantic_identifier = "Work Item " ++ Nat.repr item.id)
    ∧ (∀ t, (item.fields.getD emptyFields).title = some t →
      (mapWorkItem env item).semantic_identifier = t) := by
  constructor
  · intro h; simp [mapWorkItem, h]
  · intro t h; simp [mapWorkItem, h]

theorem missing_title_synthesizes_label_witness :
    (mapWorkItem exEnvParse exItemNone).semantic_identifier = "Work Item " ++ Nat.repr 9
      ∧ (mapWorkItem exEnvParse exItemAssigned).semantic_identifier = "T1" :=
  ⟨(missing_title_synthesizes_label exEnvParse exItemNone).1 rfl,
    (missing_title_synthesizes_label exEnvParse exItemAssigned).2 "T1" rfl⟩

/-- C10: an empty-string PAT is a string, so credential loading raises no
error and stores a client built from it. -/
theorem empty_string_pat_accepted (c : AzureDevopsConnector) :
    load_credentials c (fun k => if k = "azure_devops_pat" then some (CredVal.str "") else none)
      = Except.ok { c with client := some { pat := "" } } := by
  simp [load_credentials]

/-! Substring machinery for the query-text claims. -/

theorem isPrefixOf_append_self (sub c : List Char) : sub.isPrefixOf (sub ++ c) = true := by
  induction sub with
  | nil => simp [List.isPrefixOf]
  | cons x xs ih => simp [List.isPrefixOf, ih]

theorem hasSubstrChars_here (sub c : List Char) : hasSubstrChars (sub ++ c) sub = true := by
  cases sub with
  | nil =>
    cases c with
    | nil => rfl
    | cons a l => simp [hasSubstrChars, List.isPrefixOf]
  | cons x xs =>
    have h := isPrefixOf_append_self (x :: xs) c
    simp only [List.cons_append] at h ⊢
    simp [hasSubstrChars, h]

theorem hasSubstrChars_append_right (a s sub : List Char)
    (h : hasSubstrChars s sub = true) : hasSubstrChars (a ++ s) sub = true := by
  induction a with
  | nil => simpa using h
  | cons x xs ih =>
    simp only [List.cons_append]
    simp [hasSubstrChars, ih]

theorem strContains_parts (s sub : String) (x y : List Char)
    (hs : s.data = x ++ (sub.data ++ y)) : strContains s sub = true := by
  show hasSubstrChars s.data sub.data = true
  rw [hs]
  exact hasSubstrChars_append_right x _ _ (hasSubstrChars_here sub.data y)

theorem buildQuery_some_some (p : String) (s e : PyDateTime) :
    buildQuery p (some s) (some e)
      = "SELECT [System.Id] FROM WorkItems WHERE [System.TeamProject]='" ++ p ++ "'"
        ++ " AND [System.ChangedDate] >= '" ++ pyIsoformat s ++ "'"
        ++ " AND [System.ChangedDate] <= '" ++ pyIsoformat e ++ "'"
        ++ " ORDER BY [System.ChangedDate] ASC" := rfl

theorem buildQuery_some_none (p : String) (s : PyDateTime) :
    buildQuery p (some s) none
      = "SELECT [System.Id] FROM WorkItems WHERE [System.TeamProject]='" ++ p ++ "'"
        ++ " AND [System.ChangedDate] >= '" ++ pyIsoformat s ++ "'"
        ++ " ORDER BY [System.ChangedDate] ASC" := rfl

/-- C6: a poll with epoch-second bounds 1700000000 and 1700003600 converts
both bounds to UTC-aware timestamps, and the query text generated from
them contains both as inclusive bounds: a `>=` lower-bound clause and a
`<=` upper-bound clause on the changed-date field. -/
theorem poll_query_has_inclusive_bounds (c : AzureDevopsConnector) (env : Env) :
    poll_source c env 1700000000 1700003600
        = fetchWorkItems c env (some (pyFromtimestamp 1700000000))
            (some (pyFromtimestamp 1700003600))
      ∧ (pyFromtimestamp 1700000000).tz = some 0
      ∧ (pyFromtimestamp 1700003600).tz = some 0
      ∧ strContains
          (buildQuery c.project (some (pyFromtimestamp 1700000000))
            (some (pyFromtimestamp 1700003600)))
          " AND [System.ChangedDate] >= '2023-11-14T22:13:20+00:00'" = true
      ∧ strContains
          (buildQuery c.project (some (pyFromtimestamp 1700000000))
            (some (pyFromtimestamp 1700003600)))
          " AND [System.ChangedDate] <= '2023-11-14T23:13:20+00:00'" = true := by
  refine ⟨rfl, rfl, rfl, ?_, ?_⟩
  · rw [buildQuery_some_some]
    have hge : (" AND [System.ChangedDate] >= '"
          ++ pyIsoformat (pyFromtimestamp 1700000000) ++ "'" : String)
        = " AND [System.ChangedDate] >= '2023-11-14T22:13:20+00:00'" := by decide
    apply strContains_parts _ _
      ("SELECT [System.Id] FROM WorkItems WHERE [System.TeamProject]='"
        ++ c.project ++ "'").data
      ((" AND [System.ChangedDate] <= '" ++ pyIsoformat (pyFromtimestamp 1700003600) ++ "'"
        ++ " ORDER BY [System.ChangedDate] ASC" : String).data)
    rw [← hge]
    simp [String.data_append, List.append_assoc]
  · rw [buildQuery_some_some]
    have hle : (" AND [System.ChangedDate] <= '"
          ++ pyIsoformat (pyFromtimestamp 1700003600) ++ "'" : String)
        = " AND [System.ChangedDate] <= '2023-11-14T23:13:20+00:00'" := by decide
    apply strContains_parts _ _
      ("SELECT [System.Id] FROM WorkItems WHERE [System.TeamProject]='"
        ++ c.project ++ "'"
        ++ " AND [System.ChangedDate] >= '" ++ pyIsoformat (pyFromtimestamp 1700000000)
        ++ "'").data
      ((" ORDER BY [System.ChangedDate] ASC" : String).data)
    rw [← hle]
    simp [String.data_append, List.append_assoc]

/-- C7: the project name is interpolated verbatim (unescaped) into the
query text; with a start bound and no end bound the text carries the
`[System.TeamProject]='<project>'` clause and the `>=` lower-bound clause,
carries no `<=` upper-bound clause, and ends with the
order-by-changed-date-ascending clause (checked concretely for project
"Alpha" and start 1700000000). -/
theorem query_interpolates_project_verbatim (p : String) (s : PyDateTime) :
    buildQuery p (some s) none
        = "SELECT [System.Id] FROM WorkItems WHERE [System.TeamProject]='" ++ p ++ "'"
          ++ " AND [System.ChangedDate] >= '" ++ pyIsoformat s ++ "'"
          ++ " ORDER BY [System.ChangedDate] ASC"
      ∧ strContains (buildQuery "Alpha" (some (pyFromtimestamp 1700000000)) none)
          "[System.TeamProject]='Alpha'" = true
      ∧ strContains (buildQuery "Alpha" (some (pyFromtimestamp 1700000000)) none)
          " AND [System.ChangedDate] >= '2023-11-14T22:13:20+00:00'" = true
      ∧ strContains (buildQuery "Alpha" (some (pyFromtimestamp 1700000000)) none)
          "[System.ChangedDate] <=" = false
      ∧ strEndsWith (buildQuery "Alpha" (some (pyFromtimestamp 1700000000)) none)
          " ORDER BY [System.ChangedDate] ASC" = true := by
  refine ⟨rfl, by decide, by decide, by decide, by decide⟩

end Onyx
